import Mathlib

set_option maxRecDepth 2000

/-!
Verification of the spot-termination enrichment engine
(`src/downtime-debugging/spot-termination.py`).

The Python source is shallowly embedded: timestamps are rationals
(seconds since the epoch), prices are rationals (exact arithmetic in
place of IEEE floats), AWS API calls are an explicit oracle record
whose methods return `Except` values (a raised exception is the
`Except.error` branch, and code with no try/except block propagates
it), and the Python dict holding the enriched event is both a
structure (`EnrichedRecord`, one field per key written at lines
155-189) and an association list (`enriched_dict`) where dict-lookup
semantics matter. `round(x, n)` is modelled as exact decimal
round-half-to-even, and `round(x ** 0.5, 6)` as an integer-square-root
algorithm (`roundSqrtDiv`) proved below to agree with the half-even
rounding of the real square root.
-/

namespace SpotTermination

/-- Configuration constant from the source: how far back terminations
are considered, in minutes. -/
def LOOKBACK_MINUTES : ℕ := 180

/-- Configuration constant from the source: the target region. -/
def regionName : String := "ap-south-1"

/-- One sample of spot-price history: a (timestamp, price) pair. -/
structure PriceSample where
  timestamp : ℚ
  spotPrice : ℚ
deriving DecidableEq, Repr

/-- The `LaunchSpecification` sub-object of a spot request. -/
structure LaunchSpecification where
  instanceType : String
  vpcId : Option String
  subnetId : Option String
deriving DecidableEq, Repr

/-- One spot instance request as returned by the provider.  Optional
keys of the Python dict are `Option` fields. -/
structure SpotRequest where
  instanceId : Option String
  spotInstanceRequestId : String
  launchSpecification : LaunchSpecification
  launchedAvailabilityZone : Option String
  spotPrice : ℚ
  createTime : ℚ
  state : String
  statusCode : String
  statusMessage : String
  statusUpdateTime : ℚ
  requestType : Option String
deriving DecidableEq, Repr

/-- The parts of a `describe_instance_types` response the source reads. -/
structure InstanceTypeInfo where
  networkPerformance : String
  defaultNetworkCardIndex : Option ℤ
  supportedUsageClasses : Option (List String)

/-- Oracle for the EC2/STS API surface the script touches.  Each
method returns `Except String`: the error branch models a raised
botocore exception.  `accountId` models the STS caller identity
resolved at module load. -/
structure Ec2Api where
  describe_spot_price_history : String → Option String → ℚ → ℚ → Except String (List PriceSample)
  describe_instance_types : String → Except String InstanceTypeInfo
  describe_instance_type_offerings : String → Option String → Except String (List String)
  describe_availability_zones : Except String (List (String × String))
  accountId : String

/-- Labels for the API calls a run performs, used to trace how often
each endpoint is hit. -/
inductive ApiCall where
  | azMapping
  | priceHistory
  | instanceTypes
  | offerings
deriving DecidableEq, Repr

/-- Is an `Except` value the success branch? -/
def exOk {ε α : Type} : Except ε α → Bool
  | .ok _ => true
  | .error _ => false

instance {ε α : Type} [DecidableEq ε] [DecidableEq α] : DecidableEq (Except ε α)
  | .ok a, .ok b => decidable_of_iff (a = b) (by simp)
  | .ok _, .error _ => isFalse (by simp)
  | .error _, .ok _ => isFalse (by simp)
  | .error e, .error f => decidable_of_iff (e = f) (by simp)

/-- Round-half-to-even on rationals, as Python `round` does on the
mathematical value. -/
def roundHalfEvenQ (x : ℚ) : ℤ :=
  if Int.fract x = 1 / 2 then 2 * round (x / 2) else round x

/-- Python `round(x, n)` on the exact rational value. -/
def pyRound (x : ℚ) (n : ℕ) : ℚ :=
  (roundHalfEvenQ (x * 10 ^ n) : ℚ) / 10 ^ n

/-- Nearest integer (ties to even) to `√M / b`, computed with integer
arithmetic only.  `Nat.sqrt M / b` is the floor of `√M / b`; the
half-way comparison `√M / b ⋚ n + 1/2` squares to `4M ⋚ (b(2n+1))²`. -/
def roundSqrtDiv (M b : ℕ) : ℕ :=
  if 4 * M < b * (2 * (Nat.sqrt M / b) + 1) * (b * (2 * (Nat.sqrt M / b) + 1)) then
    Nat.sqrt M / b
  else if b * (2 * (Nat.sqrt M / b) + 1) * (b * (2 * (Nat.sqrt M / b) + 1)) < 4 * M then
    Nat.sqrt M / b + 1
  else if Nat.sqrt M / b % 2 = 0 then Nat.sqrt M / b else Nat.sqrt M / b + 1

/-- Python `round(x ** 0.5, 6)` on the exact rational `x ≥ 0`:
`√x · 10⁶ = √(10¹² · num · den) / den`, rounded half-to-even and
scaled back down.  `round6_sqrt_spec` below proves this agrees with
the half-even rounding of the real square root. -/
def round6_sqrt (x : ℚ) : ℚ :=
  (roundSqrtDiv (10 ^ 12 * x.num.toNat * x.den) x.den : ℚ) / 10 ^ 6

/-- Ordering of price samples by timestamp, the sort key of line 32. -/
def tsLE (a b : PriceSample) : Prop := a.timestamp ≤ b.timestamp

instance : DecidableRel tsLE := fun a b =>
  inferInstanceAs (Decidable (a.timestamp ≤ b.timestamp))

instance : IsTotal PriceSample tsLE := ⟨fun a b => le_total a.timestamp b.timestamp⟩

instance : IsTrans PriceSample tsLE := ⟨fun _ _ _ h1 h2 => le_trans h1 h2⟩

/-- `sorted(response, key=lambda x: x.Timestamp)` (line 32). -/
def sort_price_history (history : List PriceSample) : List PriceSample :=
  List.insertionSort tsLE history

/-- Lines 23-32: fetch the price history and return it sorted by
timestamp.  There is no try/except here, so a failed fetch
propagates. -/
def get_spot_price_history (api : Ec2Api) (instance_type : String) (az : Option String)
    (start_time end_time : ℚ) : Except String (List PriceSample) :=
  match api.describe_spot_price_history instance_type az start_time end_time with
  | .error e => .error e
  | .ok history => .ok (sort_price_history history)

/-- Lines 34-41: network performance and card index, `(None, None)`
when the lookup raises. -/
def get_network_performance (api : Ec2Api) (instance_type : String) :
    Option String × Option ℤ :=
  match api.describe_instance_types instance_type with
  | .error _ => (none, none)
  | .ok info => (some info.networkPerformance, info.defaultNetworkCardIndex)

/-- Lines 43-50: first supported usage class, defaulting the missing
key to a singleton list; any raised error becomes the string
sentinel.  Indexing `[0]` into an empty list raises, which the
`except` also catches. -/
def get_cpu_credit_type (api : Ec2Api) (instance_type : String) : String :=
  match api.describe_instance_types instance_type with
  | .error _ => "unknown"
  | .ok info =>
    match (info.supportedUsageClasses.getD ["standard"]).head? with
    | some c => c
    | none => "unknown"

/-- Lines 52-64: pool availability class with the error sentinel. -/
def get_pool_utilization_class (api : Ec2Api) (instance_type : String)
    (az : Option String) : String :=
  match api.describe_instance_type_offerings instance_type az with
  | .error _ => "unknown"
  | .ok offerings => if offerings.isEmpty then "unavailable" else "available"

/-- Lines 97-99: the zone-name to zone-id mapping, modelled as an
association list.  No try/except: a failed call propagates. -/
def get_az_id_mapping (api : Ec2Api) : Except String (List (String × String)) :=
  match api.describe_availability_zones with
  | .error e => .error e
  | .ok azs => .ok azs

/-- Line 132: the price column of the (sorted) history. -/
def price_points (price_history : List PriceSample) : List ℚ :=
  price_history.map (·.spotPrice)

/-- Line 135: first price, or the requested spot price if empty. -/
def spot_price_at_launch (prices : List ℚ) (spot_price : ℚ) : ℚ :=
  (prices.head?).getD spot_price

/-- Line 134: last price, or the requested spot price if empty. -/
def spot_price_at_termination (prices : List ℚ) (spot_price : ℚ) : ℚ :=
  (prices.getLast?).getD spot_price

/-- Line 136: price trend. -/
def price_trend (prices : List ℚ) (spot_price : ℚ) : ℚ :=
  spot_price_at_termination prices spot_price - spot_price_at_launch prices spot_price

/-- Line 137: `round((sum((p - launch)**2 for p in prices) / len(prices))**0.5, 6)
if prices else 0.0`. -/
def price_variance (prices : List ℚ) (launch : ℚ) : ℚ :=
  if prices = [] then 0
  else round6_sqrt (((prices.map fun p => (p - launch) ^ 2).sum) / prices.length)

/-- Spec-side definition (spec section 4.2): the root-mean-square
deviation of the sample prices from the launch price, as an exact
real number. -/
noncomputable def rms_deviation (prices : List ℚ) (launch : ℚ) : ℝ :=
  Real.sqrt (((prices.map fun p : ℚ => ((p : ℝ) - (launch : ℝ)) ^ 2).sum) / prices.length)

/-- Line 140: uptime in minutes, rounded to 2 decimal places. -/
def uptime_minutes (create_time termination_time : ℚ) : ℚ :=
  pyRound ((termination_time - create_time) / 60) 2

/-- Line 141. -/
def is_short_lived (uptime : ℚ) : Bool :=
  decide (uptime < 60)

/-- Line 142. -/
def uptime_class (uptime : ℚ) : String :=
  if uptime < 30 then "VeryShort" else if uptime < 120 then "Short" else "Long"

/-- Lines 145-148: `sum(1 for req in all_requests if type matches and
CreateTime >= cutoff_time)`. -/
def count_same_type (all_requests : List SpotRequest) (instance_type : String)
    (cutoff_time : ℚ) : ℕ :=
  all_requests.foldl
    (fun acc req =>
      if req.launchSpecification.instanceType == instance_type
          && decide (cutoff_time ≤ req.createTime) then acc + 1 else acc)
    0

/-- The IST offset of `pytz.timezone(Asia/Kolkata)`: UTC+5:30, in
seconds (IST has no daylight saving). -/
def IST_OFFSET : ℚ := 19800

/-- Weekday names indexed from the epoch day (1970-01-01 was a
Thursday), for `strftime` with the weekday directive. -/
def day_names : List String :=
  ["Thursday", "Friday", "Saturday", "Sunday", "Monday", "Tuesday", "Wednesday"]

/-- Line 124: weekday name of a local timestamp. -/
def day_of_week (local_time : ℚ) : String :=
  day_names.getD ((Int.floor (local_time / 86400) % 7).toNat) "Thursday"

/-- Line 125: hour of day of a local timestamp. -/
def hour_of_day (local_time : ℚ) : ℕ :=
  (Int.floor (local_time / 3600) % 24).toNat

/-- A Python value stored in the enriched dict.  `str()` of each
variant is `pyStr`; numeric rendering of rationals abstracts the
CPython float repr as the exact rational rendering (no claim below
depends on the digits chosen). -/
inductive PyVal where
  | vNone
  | vStr (s : String)
  | vNat (n : ℕ)
  | vInt (n : ℤ)
  | vRat (q : ℚ)
  | vBool (b : Bool)
deriving DecidableEq, Repr

/-- Python `str()` of a value, as interpolated by an f-string. -/
def pyStr : PyVal → String
  | .vNone => "None"
  | .vStr s => s
  | .vNat n => toString n
  | .vInt n => toString n
  | .vRat q => toString q
  | .vBool b => if b then "True" else "False"

/-- An optional string as a Python value (`None` when missing). -/
def optStrV : Option String → PyVal
  | none => .vNone
  | some s => .vStr s

/-- An optional integer as a Python value. -/
def optIntV : Option ℤ → PyVal
  | none => .vNone
  | some n => .vInt n

/-- Python dict lookup `d[k]` on an association list: a missing key
raises `KeyError`. -/
def dictGet (data : List (String × PyVal)) (key : String) : Except String PyVal :=
  match data.find? (fun p => p.1 == key) with
  | some p => .ok p.2
  | none => .error ("KeyError: " ++ key)

/-- The fully assembled enriched event, one field per dict key written
at lines 155-189 plus the description added at line 191.  `CreateTime`
and `TerminationTime` keep the numeric timestamp (the isoformat
rendering of the source is injective in it). -/
structure EnrichedRecord where
  InstanceId : Option String
  SpotInstanceRequestId : String
  InstanceType : String
  AvailabilityZone : Option String
  AvailabilityZoneId : Option String
  SpotPrice : ℚ
  SpotPriceAtLaunch : ℚ
  SpotPriceAtTermination : ℚ
  SpotPriceTrend : ℚ
  PriceVariance : ℚ
  CreateTime : ℚ
  TerminationTime : ℚ
  DayOfWeek : String
  HourOfDay : ℕ
  IsWeekend : Bool
  UptimeMinutes : ℚ
  IsShortLived : Bool
  UptimeClass : String
  State : String
  StatusCode : String
  StatusMessage : String
  InstancePopularity : ℕ
  NetworkPerformance : Option String
  NetworkCardIndex : Option ℤ
  CpuCreditsType : String
  PoolUtilizationClass : String
  RegionDemandScore : ℕ
  AZInterruptionRate : ℕ
  SpotRequestType : String
  VpcId : Option String
  SubnetId : Option String
  AccountId : String
  Region : String
  Description : String
deriving DecidableEq, Repr

/-- The enriched dict as it stands at line 191, right before the
description is generated: every key of lines 155-189, and no
Description key yet. -/
def enriched_dict (r : EnrichedRecord) : List (String × PyVal) :=
  [("InstanceId", optStrV r.InstanceId),
   ("SpotInstanceRequestId", .vStr r.SpotInstanceRequestId),
   ("InstanceType", .vStr r.InstanceType),
   ("AvailabilityZone", optStrV r.AvailabilityZone),
   ("AvailabilityZoneId", optStrV r.AvailabilityZoneId),
   ("SpotPrice", .vRat r.SpotPrice),
   ("SpotPriceAtLaunch", .vRat r.SpotPriceAtLaunch),
   ("SpotPriceAtTermination", .vRat r.SpotPriceAtTermination),
   ("SpotPriceTrend", .vRat r.SpotPriceTrend),
   ("PriceVariance", .vRat r.PriceVariance),
   ("CreateTime", .vRat r.CreateTime),
   ("TerminationTime", .vRat r.TerminationTime),
   ("DayOfWeek", .vStr r.DayOfWeek),
   ("HourOfDay", .vNat r.HourOfDay),
   ("IsWeekend", .vBool r.IsWeekend),
   ("UptimeMinutes", .vRat r.UptimeMinutes),
   ("IsShortLived", .vBool r.IsShortLived),
   ("UptimeClass", .vStr r.UptimeClass),
   ("State", .vStr r.State),
   ("StatusCode", .vStr r.StatusCode),
   ("StatusMessage", .vStr r.StatusMessage),
   ("InstancePopularity", .vNat r.InstancePopularity),
   ("NetworkPerformance", optStrV r.NetworkPerformance),
   ("NetworkCardIndex", optIntV r.NetworkCardIndex),
   ("CpuCreditsType", .vStr r.CpuCreditsType),
   ("PoolUtilizationClass", .vStr r.PoolUtilizationClass),
   ("RegionDemandScore", .vNat r.RegionDemandScore),
   ("AZInterruptionRate", .vNat r.AZInterruptionRate),
   ("SpotRequestType", .vStr r.SpotRequestType),
   ("VpcId", optStrV r.VpcId),
   ("SubnetId", optStrV r.SubnetId),
   ("AccountId", .vStr r.AccountId),
   ("Region", .vStr r.Region)]

/-- Lines 67-95 (the active template, lines 86-94): render the
descriptive summary from the enriched dict.  Each interpolated key is
looked up with Python dict semantics, so a missing key would surface
as a `KeyError`; the function performs no API call and touches
nothing but its argument and the `LOOKBACK_MINUTES` constant. -/
def generate_description (data : List (String × PyVal)) : Except String String := do
  let instance_id ← dictGet data ("InstanceId")
  let instance_type ← dictGet data ("InstanceType")
  let az ← dictGet data ("AvailabilityZone")
  let network_performance ← dictGet data ("NetworkPerformance")
  let cpu_credits ← dictGet data ("CpuCreditsType")
  let price_at_launch ← dictGet data ("SpotPriceAtLaunch")
  let uptime ← dictGet data ("UptimeMinutes")
  let uptime_cls ← dictGet data ("UptimeClass")
  let popularity ← dictGet data ("InstancePopularity")
  let region_score ← dictGet data ("RegionDemandScore")
  let region_value ← dictGet data ("Region")
  let az_rate ← dictGet data ("AZInterruptionRate")
  let req_type ← dictGet data ("SpotRequestType")
  pure ("Instance " ++ pyStr instance_id ++ " (type " ++ pyStr instance_type
    ++ ") was terminated because there was no available spot capacity in zone "
    ++ pyStr az ++ ". It had network performance of \x27" ++ pyStr network_performance
    ++ "\x27 and used \x27" ++ pyStr cpu_credits
    ++ "\x27 CPU credits. The spot price remained stable at " ++ pyStr price_at_launch
    ++ " USD. The instance lived for " ++ pyStr uptime ++ " minutes (\x27"
    ++ pyStr uptime_cls ++ "\x27 uptime). You launched " ++ pyStr popularity
    ++ " similar spot instances in the past hour, indicating high demand in your account. In the past "
    ++ toString LOOKBACK_MINUTES ++ " minutes, your account had " ++ pyStr region_score
    ++ " spot terminations in region " ++ pyStr region_value ++ ", with " ++ pyStr az_rate
    ++ " in AZ " ++ pyStr az
    ++ ", showing capacity pressure. This was a \x27" ++ pyStr req_type
    ++ "\x27 spot request, meaning AWS did not retry after termination.")

/-- Spec-side rendering of the description contract (spec section
4.5): a total function of the record alone, substituting the neutral
placeholder for every absent optional field. -/
def description_text (r : EnrichedRecord) : String :=
  "Instance " ++ (r.InstanceId.getD ("None")) ++ " (type " ++ r.InstanceType
    ++ ") was terminated because there was no available spot capacity in zone "
    ++ (r.AvailabilityZone.getD ("None")) ++ ". It had network performance of \x27"
    ++ (r.NetworkPerformance.getD ("None")) ++ "\x27 and used \x27" ++ r.CpuCreditsType
    ++ "\x27 CPU credits. The spot price remained stable at " ++ toString r.SpotPriceAtLaunch
    ++ " USD. The instance lived for " ++ toString r.UptimeMinutes ++ " minutes (\x27"
    ++ r.UptimeClass ++ "\x27 uptime). You launched " ++ toString r.InstancePopularity
    ++ " similar spot instances in the past hour, indicating high demand in your account. In the past "
    ++ toString LOOKBACK_MINUTES ++ " minutes, your account had " ++ toString r.RegionDemandScore
    ++ " spot terminations in region " ++ r.Region ++ ", with " ++ toString r.AZInterruptionRate
    ++ " in AZ " ++ (r.AvailabilityZone.getD ("None"))
    ++ ", showing capacity pressure. This was a \x27" ++ r.SpotRequestType
    ++ "\x27 spot request, meaning AWS did not retry after termination."

/-- Lines 103-189 without the description: the enriched record as
assembled from the event, the zone-id mapping, the sorted price
history, the metadata lookups and the two demand scores, with the
Description key still to be written (line 191). -/
def build_enriched (api : Ec2Api) (spot_request : SpotRequest)
    (all_requests : List SpotRequest) (region_demand_score az_demand_score : ℕ)
    (az_id_mapping : List (String × String)) (price_history : List PriceSample) :
    EnrichedRecord :=
  let instance_type := spot_request.launchSpecification.instanceType
  let az := spot_request.launchedAvailabilityZone
  let spot_price := spot_request.spotPrice
  let create_time := spot_request.createTime
  let termination_time := spot_request.statusUpdateTime
  let local_time := termination_time + IST_OFFSET
  let prices := price_points price_history
  let launch_price := spot_price_at_launch prices spot_price
  let uptime := uptime_minutes create_time termination_time
  let netinfo := get_network_performance api instance_type
  { InstanceId := spot_request.instanceId
    SpotInstanceRequestId := spot_request.spotInstanceRequestId
    InstanceType := instance_type
    AvailabilityZone := az
    AvailabilityZoneId := az.bind (fun z => az_id_mapping.lookup z)
    SpotPrice := spot_price
    SpotPriceAtLaunch := launch_price
    SpotPriceAtTermination := spot_price_at_termination prices spot_price
    SpotPriceTrend := pyRound (price_trend prices spot_price) 6
    PriceVariance := price_variance prices launch_price
    CreateTime := create_time
    TerminationTime := termination_time
    DayOfWeek := day_of_week local_time
    HourOfDay := hour_of_day local_time
    IsWeekend := ["Saturday", "Sunday"].contains (day_of_week local_time)
    UptimeMinutes := uptime
    IsShortLived := is_short_lived uptime
    UptimeClass := uptime_class uptime
    State := spot_request.state
    StatusCode := spot_request.statusCode
    StatusMessage := spot_request.statusMessage
    InstancePopularity := count_same_type all_requests instance_type (create_time - 3600)
    NetworkPerformance := netinfo.1
    NetworkCardIndex := netinfo.2
    CpuCreditsType := get_cpu_credit_type api instance_type
    PoolUtilizationClass := get_pool_utilization_class api instance_type az
    RegionDemandScore := region_demand_score
    AZInterruptionRate := az_demand_score
    SpotRequestType := spot_request.requestType.getD ("unknown")
    VpcId := spot_request.launchSpecification.vpcId
    SubnetId := spot_request.launchSpecification.subnetId
    AccountId := api.accountId
    Region := regionName
    Description := "" }

/-- Lines 102-192: enrich one termination event.  Returns the record
(or the propagated failure) together with the trace of API calls
performed, in source order: the zone-id mapping at line 107, the
price history at line 131, `describe_instance_types` twice (lines
151, 152) and the offerings call (line 153). -/
def enrich_termination_data (api : Ec2Api) (spot_request : SpotRequest)
    (all_requests : List SpotRequest) (region_demand_score az_demand_score : ℕ) :
    Except String EnrichedRecord × List ApiCall :=
  match get_az_id_mapping api with
  | .error e => (.error e, [.azMapping])
  | .ok az_id_mapping =>
    match get_spot_price_history api spot_request.launchSpecification.instanceType
        spot_request.launchedAvailabilityZone (spot_request.statusUpdateTime - 6 * 3600)
        spot_request.statusUpdateTime with
    | .error e => (.error e, [.azMapping, .priceHistory])
    | .ok price_history =>
      match generate_description (enriched_dict (build_enriched api spot_request
          all_requests region_demand_score az_demand_score az_id_mapping price_history)) with
      | .error e =>
        (.error e, [.azMapping, .priceHistory, .instanceTypes, .instanceTypes, .offerings])
      | .ok desc =>
        (.ok { build_enriched api spot_request all_requests region_demand_score
                 az_demand_score az_id_mapping price_history with Description := desc },
         [.azMapping, .priceHistory, .instanceTypes, .instanceTypes, .offerings])

/-- Lines 199-203: the batch filtered to terminations whose status
code contains the word terminated and whose update time is within the
lookback window ending at `now`. -/
def recent_terminated (spot_requests : List SpotRequest) (now : ℚ) : List SpotRequest :=
  let cutoff_time := now - (LOOKBACK_MINUTES : ℚ) * 60
  spot_requests.filter (fun req =>
    decide (("terminated").toList <:+: req.statusCode.toList)
      && decide (cutoff_time ≤ req.statusUpdateTime))

/-- Lines 209-212: the per-zone counter, a dict with default 0.  Every
read in the source uses `.get(az, 0)`, so the dict is modelled as a
total function; note the key is the (optional) zone, so events with a
missing zone share the `none` bucket. -/
def az_counter (recent : List SpotRequest) : Option String → ℕ :=
  recent.foldl
    (fun counter req => fun z =>
      if z = req.launchedAvailabilityZone then counter z + 1 else counter z)
    (fun _ => 0)

/-- Lines 215-220: enrich every recent termination in order, threading
the shared demand scores; an exception from any enrichment aborts the
whole run (the output file is never written). -/
def termination_logs (api : Ec2Api) (all_requests : List SpotRequest)
    (region_demand_score : ℕ) (counter : Option String → ℕ) :
    List SpotRequest → Except String (List EnrichedRecord) × List ApiCall
  | [] => (.ok [], [])
  | req :: rest =>
    match (enrich_termination_data api req all_requests region_demand_score
        (counter req.launchedAvailabilityZone)).1 with
    | .error e =>
      (.error e,
       (enrich_termination_data api req all_requests region_demand_score
         (counter req.launchedAvailabilityZone)).2)
    | .ok rec =>
      (((termination_logs api all_requests region_demand_score counter rest).1).map
         (fun tail => rec :: tail),
       (enrich_termination_data api req all_requests region_demand_score
           (counter req.launchedAvailabilityZone)).2
         ++ (termination_logs api all_requests region_demand_score counter rest).2)

/-- Lines 195-220: one full run over a batch snapshot taken at `now`. -/
def run_enrichment (api : Ec2Api) (spot_requests : List SpotRequest) (now : ℚ) :
    Except String (List EnrichedRecord) × List ApiCall :=
  termination_logs api spot_requests (recent_terminated spot_requests now).length
    (az_counter (recent_terminated spot_requests now)) (recent_terminated spot_requests now)

/-! Concrete test fixtures used by counterexamples and witnesses. -/

/-- A healthy API oracle whose price history is empty. -/
def api0 : Ec2Api :=
  { describe_spot_price_history := fun _ _ _ _ => .ok []
    describe_instance_types := fun _ =>
      .ok { networkPerformance := "Up to 10 Gigabit"
            defaultNetworkCardIndex := some 0
            supportedUsageClasses := some ["spot", "on-demand"] }
    describe_instance_type_offerings := fun _ _ => .ok ["m5.large"]
    describe_availability_zones := .ok [("ap-south-1a", "aps1-az1"), ("ap-south-1b", "aps1-az3")]
    accountId := "123456789012" }

/-- `api0` with a failing price-history endpoint. -/
def apiPriceFail : Ec2Api :=
  { api0 with describe_spot_price_history := fun _ _ _ _ => .error ("RequestLimitExceeded") }

/-- `api0` with a failing availability-zones endpoint. -/
def apiAzFail : Ec2Api :=
  { api0 with describe_availability_zones := .error ("UnauthorizedOperation") }

/-- `api0` with failing instance-type metadata and offerings endpoints. -/
def apiMetaFail : Ec2Api :=
  { api0 with
    describe_instance_types := fun _ => .error ("Throttling")
    describe_instance_type_offerings := fun _ _ => .error ("Throttling") }

/-- A launch specification shared by the sample events. -/
def lsA : LaunchSpecification :=
  { instanceType := "m5.large", vpcId := none, subnetId := none }

/-- Sample terminated event created at t = 0. -/
def e0q : SpotRequest :=
  { instanceId := some ("i-000")
    spotInstanceRequestId := "sir-0"
    launchSpecification := lsA
    launchedAvailabilityZone := some ("ap-south-1a")
    spotPrice := 9 / 200
    createTime := 0
    state := "closed"
    statusCode := "instance-terminated-no-capacity"
    statusMessage := "There is no Spot capacity available"
    statusUpdateTime := 600
    requestType := some ("one-time") }

/-- Sample terminated event of the same type created 10 minutes later. -/
def e1q : SpotRequest :=
  { e0q with spotInstanceRequestId := "sir-1", createTime := 600, statusUpdateTime := 1200 }

/-- Sample terminated event with no availability zone. -/
def eN : SpotRequest :=
  { e0q with spotInstanceRequestId := "sir-2", launchedAvailabilityZone := none }

/-- A two-event batch. -/
def batch2 : List SpotRequest := [e0q, e1q]

/-- A throwaway record used only as a `getD` default below. -/
def arbRecord : EnrichedRecord :=
  { InstanceId := none, SpotInstanceRequestId := "", InstanceType := "",
    AvailabilityZone := none, AvailabilityZoneId := none, SpotPrice := 0,
    SpotPriceAtLaunch := 0, SpotPriceAtTermination := 0, SpotPriceTrend := 0,
    PriceVariance := 0, CreateTime := 0, TerminationTime := 0, DayOfWeek := "",
    HourOfDay := 0, IsWeekend := false, UptimeMinutes := 0, IsShortLived := false,
    UptimeClass := "", State := "", StatusCode := "", StatusMessage := "",
    InstancePopularity := 0, NetworkPerformance := none, NetworkCardIndex := none,
    CpuCreditsType := "", PoolUtilizationClass := "", RegionDemandScore := 0,
    AZInterruptionRate := 0, SpotRequestType := "", VpcId := none, SubnetId := none,
    AccountId := "", Region := "", Description := "" }

/-- The record `api0` produces for `e0q` against the two-event batch. -/
def rec0C1 : EnrichedRecord :=
  ((enrich_termination_data api0 e0q batch2 0 0).1).toOption.getD arbRecord

/-- The record produced when all best-effort metadata lookups fail. -/
def rec3 : EnrichedRecord :=
  ((enrich_termination_data apiMetaFail e0q [e0q] 0 0).1).toOption.getD arbRecord

/-- The output collection of a healthy run over `batch2`. -/
def rlRun : List EnrichedRecord :=
  ((run_enrichment api0 batch2 1200).1).toOption.getD []

/-- The first record of that run. -/
def recRun : EnrichedRecord := rlRun.headD arbRecord

/-- Unsorted two-sample price history (later timestamp listed first). -/
def raw0 : List PriceSample := [⟨100, 1 / 20⟩, ⟨50, 3 / 100⟩]

/-- Price list whose RMS deviation from launch is 3e-7: small enough
that rounding to 6 decimal places collapses it to zero. -/
def prices0 : List ℚ := [0, 2 / 10 ^ 7, 4 / 10 ^ 7, 4 / 10 ^ 7]

/-! Helper lemmas (shared across the claim theorems below). -/

/-- A conditional-increment fold is a `countP`. -/
lemma foldl_count_gen {α : Type} (p : α → Bool) (l : List α) (a : ℕ) :
    l.foldl (fun acc x => if p x then acc + 1 else acc) a = a + l.countP p := by
  induction l generalizing a with
  | nil => simp
  | cons x xs ih =>
    rw [List.foldl_cons, ih, List.countP_cons]
    by_cases h : p x = true
    · simp [h]
      omega
    · simp [h]

/-- Closed form of the popularity fold of lines 146-148. -/
lemma count_same_type_eq (all : List SpotRequest) (it : String) (cut : ℚ) :
    count_same_type all it cut
      = all.countP (fun r =>
          r.launchSpecification.instanceType == it && decide (cut ≤ r.createTime)) := by
  unfold count_same_type
  rw [foldl_count_gen]
  simp

/-- Closed form of the zone-counting loop of lines 209-212, for any
starting dict. -/
lemma az_counter_foldl (l : List SpotRequest) (m : Option String → ℕ) (z : Option String) :
    (l.foldl
      (fun counter req => fun w =>
        if w = req.launchedAvailabilityZone then counter w + 1 else counter w) m) z
      = m z + l.countP (fun r => decide (r.launchedAvailabilityZone = z)) := by
  induction l generalizing m with
  | nil => simp
  | cons x xs ih =>
    rw [List.foldl_cons, ih, List.countP_cons]
    by_cases h : z = x.launchedAvailabilityZone
    · simp [h]
      omega
    · simp [h, Ne.symm h]

/-- Closed form of `az_counter`. -/
lemma az_counter_eq (recent : List SpotRequest) (z : Option String) :
    az_counter recent z
      = recent.countP (fun r => decide (r.launchedAvailabilityZone = z)) := by
  unfold az_counter
  rw [az_counter_foldl]
  omega

/-- The description template never raises: dict evaluation of the
enriched dict yields exactly the total rendering. -/
lemma generate_ok (r : EnrichedRecord) :
    generate_description (enriched_dict r) = .ok (description_text r) := by
  rcases r with ⟨iid, _, _, az, _, _, _, _, _, _, _, _, _, _, _, _, _, _, _, _, _, _,
    np, _, _, _, _, _, _, _, _, _, _, _⟩
  cases iid <;> cases az <;> cases np <;> rfl

/-- Dissection of a successful enrichment: the two unguarded API calls
must have succeeded, and every derived field of the record is the
corresponding feature function of the event, the batch and the sorted
price history. -/
lemma enrich_ok_fields (api : Ec2Api) (e : SpotRequest) (all : List SpotRequest)
    (rds ads : ℕ) (rec : EnrichedRecord)
    (h : (enrich_termination_data api e all rds ads).1 = .ok rec) :
    ∃ sortedHist,
      get_spot_price_history api e.launchSpecification.instanceType
          e.launchedAvailabilityZone (e.statusUpdateTime - 6 * 3600) e.statusUpdateTime
        = .ok sortedHist ∧
      rec.InstancePopularity
        = count_same_type all e.launchSpecification.instanceType (e.createTime - 3600) ∧
      rec.AZInterruptionRate = ads ∧
      rec.RegionDemandScore = rds ∧
      rec.SpotPriceAtLaunch = spot_price_at_launch (price_points sortedHist) e.spotPrice ∧
      rec.SpotPriceAtTermination
        = spot_price_at_termination (price_points sortedHist) e.spotPrice ∧
      rec.SpotPriceTrend = pyRound (price_trend (price_points sortedHist) e.spotPrice) 6 ∧
      rec.PriceVariance
        = price_variance (price_points sortedHist)
            (spot_price_at_launch (price_points sortedHist) e.spotPrice) ∧
      rec.UptimeMinutes = uptime_minutes e.createTime e.statusUpdateTime ∧
      rec.IsShortLived = is_short_lived (uptime_minutes e.createTime e.statusUpdateTime) ∧
      rec.UptimeClass = uptime_class (uptime_minutes e.createTime e.statusUpdateTime) ∧
      rec.NetworkPerformance
        = (get_network_performance api e.launchSpecification.instanceType).1 ∧
      rec.NetworkCardIndex
        = (get_network_performance api e.launchSpecification.instanceType).2 ∧
      rec.CpuCreditsType = get_cpu_credit_type api e.launchSpecification.instanceType ∧
      rec.PoolUtilizationClass
        = get_pool_utilization_class api e.launchSpecification.instanceType
            e.launchedAvailabilityZone := by
  unfold enrich_termination_data at h
  split at h
  · simp at h
  · split at h
    · simp at h
    · rename_i sortedHist hp
      split at h
      · simp at h
      · rename_i desc hgen
        simp only [Except.ok.injEq] at h
        subst h
        exact ⟨sortedHist, hp, rfl, rfl, rfl, rfl, rfl, rfl, rfl, rfl, rfl, rfl, rfl,
          rfl, rfl, rfl⟩

/-- A successful enrichment is possible exactly when the two unguarded
calls succeed. -/
lemma enrich_isOk (api : Ec2Api) (e : SpotRequest) (all : List SpotRequest)
    (rds ads : ℕ) :
    exOk (enrich_termination_data api e all rds ads).1
      = (exOk (get_az_id_mapping api)
          && exOk (get_spot_price_history api e.launchSpecification.instanceType
              e.launchedAvailabilityZone (e.statusUpdateTime - 6 * 3600)
              e.statusUpdateTime)) := by
  unfold enrich_termination_data
  split
  · rename_i err hm
    simp [hm, exOk]
  · rename_i mapping hm
    split
    · rename_i err hp
      simp [hm, hp, exOk]
    · rename_i sortedHist hp
      split
      · rename_i err hgen
        rw [generate_ok] at hgen
        simp at hgen
      · simp [hm, hp, exOk]

/-- Every single enrichment call hits the zone-mapping endpoint
exactly once, whether it succeeds or not. -/
lemma enrich_az_trace (api : Ec2Api) (e : SpotRequest) (all : List SpotRequest)
    (rds ads : ℕ) :
    ((enrich_termination_data api e all rds ads).2).count ApiCall.azMapping = 1 := by
  unfold enrich_termination_data
  split
  · rfl
  · split
    · rfl
    · split <;> rfl

/-- On a successful pass the loop hits the zone-mapping endpoint once
per processed event. -/
lemma termination_logs_az_count (api : Ec2Api) (all : List SpotRequest) (rds : ℕ)
    (counter : Option String → ℕ) :
    ∀ (sub : List SpotRequest) (recs : List EnrichedRecord),
      (termination_logs api all rds counter sub).1 = .ok recs →
      ((termination_logs api all rds counter sub).2).count ApiCall.azMapping
        = sub.length := by
  intro sub
  induction sub with
  | nil => intro recs _; simp [termination_logs]
  | cons req rest ih =>
    intro recs h
    unfold termination_logs at h ⊢
    cases he : (enrich_termination_data api req all rds
        (counter req.launchedAvailabilityZone)).1 with
    | error err => rw [he] at h; simp at h
    | ok rec =>
      rw [he] at h
      cases hr : (termination_logs api all rds counter rest).1 with
      | error err => simp [hr, Except.map] at h
      | ok tail =>
        simp only [List.count_append, enrich_az_trace, List.length_cons]
        rw [ih tail hr]
        omega

/-- Every record of a successful loop pass carries the zone score of
one of the processed events and the shared region score. -/
lemma termination_logs_mem (api : Ec2Api) (all : List SpotRequest) (rds : ℕ)
    (counter : Option String → ℕ) :
    ∀ (sub : List SpotRequest) (recs : List EnrichedRecord) (rec : EnrichedRecord),
      (termination_logs api all rds counter sub).1 = .ok recs → rec ∈ recs →
      ∃ req ∈ sub, rec.AZInterruptionRate = counter req.launchedAvailabilityZone ∧
        rec.RegionDemandScore = rds := by
  intro sub
  induction sub with
  | nil =>
    intro recs rec h hmem
    simp [termination_logs] at h
    subst h
    simp at hmem
  | cons req rest ih =>
    intro recs rec h hmem
    unfold termination_logs at h
    cases he : (enrich_termination_data api req all rds
        (counter req.launchedAvailabilityZone)).1 with
    | error err => rw [he] at h; simp at h
    | ok rec0 =>
      rw [he] at h
      cases hr : (termination_logs api all rds counter rest).1 with
      | error err => rw [hr] at h; simp [Except.map] at h
      | ok tail =>
        rw [hr] at h
        simp only [Except.map, Except.ok.injEq] at h
        subst h
        rcases List.mem_cons.mp hmem with hrec | hrec
        · obtain ⟨_, _, _, hAZ, hRDS, _⟩ := enrich_ok_fields api req all rds
            (counter req.launchedAvailabilityZone) rec0 he
          refine ⟨req, List.mem_cons_self req rest, ?_, ?_⟩
          · rw [hrec]
            exact hAZ
          · rw [hrec]
            exact hRDS
        · obtain ⟨req2, hreq2, hAZ, hRDS⟩ := ih tail rec hr hrec
          exact ⟨req2, List.mem_cons_of_mem req hreq2, hAZ, hRDS⟩

/-- The head of a timestamp-sorted sample list has minimal timestamp. -/
lemma sorted_head_min {l : List PriceSample} (hs : l.Sorted tsLE) {y : PriceSample}
    (hy : l.head? = some y) : ∀ x ∈ l, tsLE y x := by
  intro x hx
  cases l with
  | nil => simp at hy
  | cons a t =>
    simp only [List.head?_cons, Option.some.injEq] at hy
    subst hy
    rcases List.mem_cons.mp hx with h | h
    · subst h
      exact le_refl _
    · exact List.rel_of_sorted_cons hs x h

/-- The last element of a timestamp-sorted sample list has maximal
timestamp. -/
lemma sorted_getLast_max :
    ∀ (l : List PriceSample), l.Sorted tsLE → ∀ {y : PriceSample},
      l.getLast? = some y → ∀ x ∈ l, tsLE x y
  | [] => by
    intro _ y hy
    simp at hy
  | [a] => by
    intro _ y hy x hx
    simp at hy hx
    subst hy
    subst hx
    exact le_refl _
  | a :: b :: t => by
    intro hs y hy x hx
    rw [List.getLast?_cons_cons] at hy
    rcases List.mem_cons.mp hx with h | h
    · subst h
      exact List.rel_of_sorted_cons hs y (List.mem_of_mem_getLast? hy)
    · exact sorted_getLast_max (b :: t) hs.of_cons hy x h

/-- The floor of `√M / b` is `Nat.sqrt M / b`. -/
lemma sqrt_div_floor (M b : ℕ) (hb : 0 < b) :
    ((Nat.sqrt M / b : ℕ) : ℝ) ≤ Real.sqrt M / b ∧
      Real.sqrt M / b < ((Nat.sqrt M / b : ℕ) : ℝ) + 1 := by
  have h1 : ((Nat.sqrt M : ℕ) : ℝ) ≤ Real.sqrt M := Real.nat_sqrt_le_real_sqrt
  have h2 : Real.sqrt (M : ℝ) < (Nat.sqrt M : ℝ) + 1 := Real.real_sqrt_lt_nat_sqrt_succ
  have hbR : (0 : ℝ) < b := by positivity
  constructor
  · rw [le_div_iff₀ hbR]
    have hmul : ((Nat.sqrt M / b : ℕ) : ℝ) * b ≤ ((Nat.sqrt M : ℕ) : ℝ) := by
      exact_mod_cast Nat.div_mul_le_self (Nat.sqrt M) b
    linarith
  · rw [div_lt_iff₀ hbR]
    have hqr : b * (Nat.sqrt M / b) + Nat.sqrt M % b = Nat.sqrt M :=
      Nat.div_add_mod (Nat.sqrt M) b
    have hr : Nat.sqrt M % b < b := Nat.mod_lt _ hb
    have h3 : Nat.sqrt M + 1 ≤ (Nat.sqrt M / b + 1) * b := by
      rw [Nat.succ_mul, Nat.mul_comm]
      omega
    have h3R : ((Nat.sqrt M : ℕ) : ℝ) + 1 ≤ (((Nat.sqrt M / b : ℕ) : ℝ) + 1) * b := by
      exact_mod_cast h3
    linarith

/-- `roundSqrtDiv` is the half-even rounding of `√M / b`: it is within
half of it, and at an exact tie it is even. -/
lemma roundSqrtDiv_spec (M b : ℕ) (hb : 0 < b) :
    |((roundSqrtDiv M b : ℕ) : ℝ) - Real.sqrt M / b| ≤ 1 / 2 ∧
      (|((roundSqrtDiv M b : ℕ) : ℝ) - Real.sqrt M / b| = 1 / 2 →
        Even (roundSqrtDiv M b)) := by
  obtain ⟨hlo, hhi⟩ := sqrt_div_floor M b hb
  have hbR : (0 : ℝ) < b := by positivity
  have hsN : (0 : ℝ) ≤ Real.sqrt M := Real.sqrt_nonneg _
  unfold roundSqrtDiv
  set q := Nat.sqrt M / b with hq
  have hcpos : (0 : ℝ) < (b : ℝ) * (2 * q + 1) := by positivity
  split_ifs with h1 h2 h3
  · -- strictly below the tie: round down to q
    have hlt : Real.sqrt M < (b : ℝ) * (2 * q + 1) / 2 := by
      rw [Real.sqrt_lt' (by positivity)]
      have : (4 * M : ℝ) < ((b * (2 * q + 1) : ℕ) : ℝ) * ((b * (2 * q + 1) : ℕ) : ℝ) := by
        exact_mod_cast h1
      push_cast at this
      nlinarith
    have hxlt : Real.sqrt M / b < (q : ℝ) + 1 / 2 := by
      rw [div_lt_iff₀ hbR]
      have hexp : ((q : ℝ) + 1 / 2) * b = (b : ℝ) * (2 * q + 1) / 2 := by ring
      rw [hexp]
      exact hlt
    rw [abs_sub_comm, abs_of_nonneg (by linarith)]
    constructor
    · linarith
    · intro habs
      linarith
  · -- strictly above the tie: round up to q + 1
    have hgt : (b : ℝ) * (2 * q + 1) / 2 < Real.sqrt M := by
      rw [Real.lt_sqrt (by positivity)]
      have : ((b * (2 * q + 1) : ℕ) : ℝ) * ((b * (2 * q + 1) : ℕ) : ℝ) < (4 * M : ℝ) := by
        exact_mod_cast h2
      push_cast at this
      nlinarith
    have hxgt : (q : ℝ) + 1 / 2 < Real.sqrt M / b := by
      rw [lt_div_iff₀ hbR]
      have hexp : ((q : ℝ) + 1 / 2) * b = (b : ℝ) * (2 * q + 1) / 2 := by ring
      rw [hexp]
      exact hgt
    push_cast
    rw [abs_of_nonneg (by linarith)]
    constructor
    · linarith
    · intro habs
      linarith
  · -- exact tie, q even: keep q
    have heq : 4 * M = b * (2 * q + 1) * (b * (2 * q + 1)) := le_antisymm
      (le_of_not_lt (by intro hcon; exact h2 hcon))
      (le_of_not_lt (by intro hcon; exact h1 hcon))
    have hsq : Real.sqrt M = (b : ℝ) * (2 * q + 1) / 2 := by
      have hMR : (M : ℝ) = ((b : ℝ) * (2 * q + 1) / 2) ^ 2 := by
        have h4 : (4 : ℝ) * (M : ℝ)
            = ((b : ℝ) * (2 * (q : ℝ) + 1)) * ((b : ℝ) * (2 * (q : ℝ) + 1)) := by
          exact_mod_cast heq
        nlinarith
      rw [hMR]
      exact Real.sqrt_sq (by positivity)
    have hxval : Real.sqrt M / b = (q : ℝ) + 1 / 2 := by
      rw [hsq]
      field_simp
      ring
    rw [hxval]
    constructor
    · rw [abs_sub_comm, abs_of_nonneg (by linarith)]
      linarith
    · intro _
      exact Nat.even_iff.mpr h3
  · -- exact tie, q odd: round to the even q + 1
    have heq : 4 * M = b * (2 * q + 1) * (b * (2 * q + 1)) := le_antisymm
      (le_of_not_lt (by intro hcon; exact h2 hcon))
      (le_of_not_lt (by intro hcon; exact h1 hcon))
    have hsq : Real.sqrt M = (b : ℝ) * (2 * q + 1) / 2 := by
      have hMR : (M : ℝ) = ((b : ℝ) * (2 * q + 1) / 2) ^ 2 := by
        have h4 : (4 : ℝ) * (M : ℝ)
            = ((b : ℝ) * (2 * (q : ℝ) + 1)) * ((b : ℝ) * (2 * (q : ℝ) + 1)) := by
          exact_mod_cast heq
        nlinarith
      rw [hMR]
      exact Real.sqrt_sq (by positivity)
    have hxval : Real.sqrt M / b = (q : ℝ) + 1 / 2 := by
      rw [hsq]
      field_simp
      ring
    rw [hxval]
    constructor
    · push_cast
      rw [abs_of_nonneg (by linarith)]
      linarith
    · intro _
      have hodd : Odd q := Nat.odd_iff.mpr (by omega)
      simpa using hodd.add_one

/-- `round6_sqrt` computes the half-even 6-decimal rounding of the
real square root. -/
lemma round6_sqrt_spec (x : ℚ) (hx : 0 ≤ x) :
    ∃ k : ℕ, round6_sqrt x = (k : ℚ) / 10 ^ 6 ∧
      |(k : ℝ) - 10 ^ 6 * Real.sqrt (x : ℝ)| ≤ 1 / 2 ∧
      (|(k : ℝ) - 10 ^ 6 * Real.sqrt (x : ℝ)| = 1 / 2 → Even k) := by
  have hb : 0 < x.den := x.den_pos
  have hnum : (0 : ℤ) ≤ x.num := Rat.num_nonneg.mpr hx
  obtain ⟨h1, h2⟩ := roundSqrtDiv_spec (10 ^ 12 * x.num.toNat * x.den) x.den hb
  have hdenne : ((x.den : ℕ) : ℝ) ≠ 0 := by positivity
  have key : Real.sqrt ((10 ^ 12 * x.num.toNat * x.den : ℕ) : ℝ) / ((x.den : ℕ) : ℝ)
      = 10 ^ 6 * Real.sqrt (x : ℝ) := by
    have hM : ((10 ^ 12 * x.num.toNat * x.den : ℕ) : ℝ)
        = ((10 ^ 6 : ℝ) * x.den) ^ 2 * (x : ℝ) := by
      have htn : ((x.num.toNat : ℕ) : ℝ) = ((x.num : ℤ) : ℝ) := by
        exact_mod_cast Int.toNat_of_nonneg hnum
      have hcast : (x : ℝ) = (x.num : ℝ) / (x.den : ℝ) := Rat.cast_def x
      push_cast
      rw [htn, hcast]
      field_simp
      ring
    rw [hM, Real.sqrt_mul (by positivity) (x : ℝ), Real.sqrt_sq (by positivity)]
    field_simp
    ring
  rw [key] at h1 h2
  exact ⟨roundSqrtDiv (10 ^ 12 * x.num.toNat * x.den) x.den, rfl, h1, h2⟩

/-- Casting the rational mean of squared deviations to the reals. -/
lemma mean_sq_cast (prices : List ℚ) (launch : ℚ) :
    ((((prices.map fun p => (p - launch) ^ 2).sum) / (prices.length : ℚ) : ℚ) : ℝ)
      = ((prices.map fun p : ℚ => ((p : ℝ) - (launch : ℝ)) ^ 2).sum) / (prices.length : ℝ) := by
  rw [Rat.cast_div]
  have hsum : (((prices.map fun p => (p - launch) ^ 2).sum : ℚ) : ℝ)
      = ((prices.map fun p : ℚ => ((p : ℝ) - (launch : ℝ)) ^ 2).sum) := by
    induction prices with
    | nil => simp
    | cons p ps ih =>
      simp only [List.map_cons, List.sum_cons, Rat.cast_add, ih]
      push_cast
      ring
  rw [hsum]
  norm_num

/-- The mean of squared deviations is nonnegative. -/
lemma mean_sq_nonneg (prices : List ℚ) (launch : ℚ) :
    0 ≤ ((prices.map fun p => (p - launch) ^ 2).sum) / (prices.length : ℚ) := by
  apply div_nonneg
  · apply List.sum_nonneg
    intro a ha
    obtain ⟨p, _, hp⟩ := List.mem_map.mp ha
    rw [← hp]
    positivity
  · positivity

/-- The RMS deviation is the square root of the cast rational mean. -/
lemma rms_eq_sqrt_cast (prices : List ℚ) (launch : ℚ) :
    rms_deviation prices launch
      = Real.sqrt ((((prices.map fun p => (p - launch) ^ 2).sum)
          / (prices.length : ℚ) : ℚ) : ℝ) := by
  unfold rms_deviation
  rw [mean_sq_cast]

/-! The claim theorems. -/

unseal Rat.add Rat.sub Rat.mul Rat.inv in
/-- Claim C1, counterexample: lines 146-148 place no upper bound on
the creation time, so for two same-type events created at t = 0 s and
t = 600 s the code attributes popularity 2 to the t = 0 event, while
the claimed inclusive window [creation − 60 min, creation] holds only
the event itself (count 1). -/
theorem popularity_counterexample :
    count_same_type batch2 "m5.large" (e0q.createTime - 3600) = 2 ∧
    batch2.countP (fun r =>
      r.launchSpecification.instanceType == "m5.large"
        && decide (e0q.createTime - 3600 ≤ r.createTime)
        && decide (r.createTime ≤ e0q.createTime)) = 1 :=
  ⟨of_decide_eq_true rfl, of_decide_eq_true rfl⟩

/-- Claim C1, amended: the popularity field of every successfully
enriched event counts the batch events of the same instance type
created at or after one hour before the target's creation, with no
upper bound — events created after the target also count, so both the
t = 0 and the t = 10 min event of the spec's example receive count 2. -/
theorem popularity_amended (api : Ec2Api) (e : SpotRequest) (all : List SpotRequest)
    (rds ads : ℕ) (rec : EnrichedRecord)
    (h : (enrich_termination_data api e all rds ads).1 = .ok rec) :
    rec.InstancePopularity = all.countP (fun r =>
      r.launchSpecification.instanceType == e.launchSpecification.instanceType
        && decide (e.createTime - 3600 ≤ r.createTime)) := by
  obtain ⟨_, _, hpop, _⟩ := enrich_ok_fields api e all rds ads rec h
  rw [hpop, count_same_type_eq]

unseal Rat.add Rat.sub Rat.mul Rat.inv in
/-- Claim C1, witness for the amended theorem at the concrete batch. -/
theorem popularity_amended_witness :
    rec0C1.InstancePopularity = batch2.countP (fun r =>
      r.launchSpecification.instanceType == e0q.launchSpecification.instanceType
        && decide (e0q.createTime - 3600 ≤ r.createTime)) :=
  popularity_amended api0 e0q batch2 0 0 rec0C1 (of_decide_eq_true rfl)

unseal Rat.add Rat.sub Rat.mul Rat.inv in
/-- Claim C2, counterexample: an in-window event with a missing zone
is attributed to the `none` bucket of the zone counter (lines
209-212), and the per-event lookup for it returns 1, not 0. -/
theorem zone_bucket_counterexample :
    recent_terminated [eN] 0 = [eN] ∧
    eN.launchedAvailabilityZone = none ∧
    az_counter (recent_terminated [eN] 0) eN.launchedAvailabilityZone = 1 :=
  ⟨of_decide_eq_true rfl, rfl, of_decide_eq_true rfl⟩

/-- Claim C2, amended: for every zone key — including the `none` key
shared by all events with a missing zone — the zone counter equals the
number of filtered events with exactly that zone, so a missing-zone
event is attributed to the missing-zone bucket and its own lookup
returns that bucket's count (at least one), not zero. -/
theorem zone_bucket_amended (recent : List SpotRequest) (z : Option String) :
    az_counter recent z
      = recent.countP (fun r => decide (r.launchedAvailabilityZone = z)) :=
  az_counter_eq recent z

unseal Rat.add Rat.sub Rat.mul Rat.inv in
/-- Claim C3, counterexample: a failed price-history fetch and a
failed zone-mapping fetch each abort the whole enrichment of the event
with the propagated error — the affected field is not degraded to a
sentinel. -/
theorem lookup_failure_counterexample :
    (enrich_termination_data apiPriceFail e0q [e0q] 1 1).1
      = Except.error ("RequestLimitExceeded") ∧
    (enrich_termination_data apiAzFail e0q [e0q] 1 1).1
      = Except.error ("UnauthorizedOperation") :=
  ⟨rfl, rfl⟩

/-- Claim C3, amended: enrichment of an event succeeds exactly when
the zone-mapping and price-history fetches succeed (their failures
propagate), while failures of the guarded lookups — network
performance, CPU-credit class, pool availability — only degrade the
corresponding fields to their sentinels. -/
theorem lookup_failure_amended (api : Ec2Api) (e : SpotRequest)
    (all : List SpotRequest) (rds ads : ℕ) :
    exOk (enrich_termination_data api e all rds ads).1
      = (exOk (get_az_id_mapping api)
          && exOk (get_spot_price_history api e.launchSpecification.instanceType
              e.launchedAvailabilityZone (e.statusUpdateTime - 6 * 3600)
              e.statusUpdateTime)) ∧
    (∀ rec, (enrich_termination_data api e all rds ads).1 = Except.ok rec →
      (exOk (api.describe_instance_types e.launchSpecification.instanceType) = false →
        rec.NetworkPerformance = none ∧ rec.NetworkCardIndex = none ∧
          rec.CpuCreditsType = "unknown") ∧
      (exOk (api.describe_instance_type_offerings e.launchSpecification.instanceType
          e.launchedAvailabilityZone) = false →
        rec.PoolUtilizationClass = "unknown")) := by
  refine ⟨enrich_isOk api e all rds ads, ?_⟩
  intro rec h
  obtain ⟨_, _, _, _, _, _, _, _, _, _, _, _, hnet1, hnet2, hcpu, hpool⟩ :=
    enrich_ok_fields api e all rds ads rec h
  constructor
  · intro hfail
    cases hit : api.describe_instance_types e.launchSpecification.instanceType with
    | ok info =>
      rw [hit] at hfail
      simp [exOk] at hfail
    | error err =>
      refine ⟨?_, ?_, ?_⟩
      · rw [hnet1]
        unfold get_network_performance
        rw [hit]
      · rw [hnet2]
        unfold get_network_performance
        rw [hit]
      · rw [hcpu]
        unfold get_cpu_credit_type
        rw [hit]
  · intro hfail
    cases hof : api.describe_instance_type_offerings e.launchSpecification.instanceType
        e.launchedAvailabilityZone with
    | ok l =>
      rw [hof] at hfail
      simp [exOk] at hfail
    | error err =>
      rw [hpool]
      unfold get_pool_utilization_class
      rw [hof]

unseal Rat.add Rat.sub Rat.mul Rat.inv in
/-- Claim C3, witness for the amended theorem: with failing metadata
endpoints the record is still produced and carries the sentinels. -/
theorem lookup_failure_amended_witness :
    (rec3.NetworkPerformance = none ∧ rec3.NetworkCardIndex = none ∧
      rec3.CpuCreditsType = "unknown") ∧ rec3.PoolUtilizationClass = "unknown" := by
  have h := (lookup_failure_amended apiMetaFail e0q [e0q] 0 0).2 rec3
    (of_decide_eq_true rfl)
  exact ⟨h.1 rfl, h.2 rfl⟩

/-- Claim C4, confirmed: after the timestamp sort of line 32, the
launch price is the price of a sample of minimal timestamp, the
termination price that of a sample of maximal timestamp, both fall
back to the requested spot price on an empty series, and the trend is
their difference (line 136). -/
theorem price_extraction (raw : List PriceSample) (spot_price : ℚ) :
    (raw = [] →
      spot_price_at_launch (price_points (sort_price_history raw)) spot_price
        = spot_price ∧
      spot_price_at_termination (price_points (sort_price_history raw)) spot_price
        = spot_price) ∧
    (raw ≠ [] →
      (∃ s ∈ raw, spot_price_at_launch (price_points (sort_price_history raw)) spot_price
          = s.spotPrice ∧ ∀ s2 ∈ raw, s.timestamp ≤ s2.timestamp) ∧
      (∃ s ∈ raw,
          spot_price_at_termination (price_points (sort_price_history raw)) spot_price
          = s.spotPrice ∧ ∀ s2 ∈ raw, s2.timestamp ≤ s.timestamp)) ∧
    price_trend (price_points (sort_price_history raw)) spot_price
      = spot_price_at_termination (price_points (sort_price_history raw)) spot_price
        - spot_price_at_launch (price_points (sort_price_history raw)) spot_price := by
  refine ⟨?_, ?_, rfl⟩
  · intro h
    subst h
    exact ⟨rfl, rfl⟩
  · intro hne
    have hperm := List.perm_insertionSort tsLE raw
    have hsorted := List.sorted_insertionSort tsLE raw
    have hne2 : sort_price_history raw ≠ [] := by
      unfold sort_price_history
      intro hcon
      rw [hcon] at hperm
      exact hne hperm.symm.eq_nil
    obtain ⟨a, t, hcons⟩ := List.exists_cons_of_ne_nil hne2
    have hsorted2 : (sort_price_history raw).Sorted tsLE := hsorted
    constructor
    · refine ⟨a, ?_, ?_, ?_⟩
      · exact (List.perm_insertionSort tsLE raw).mem_iff.mp (by rw [show List.insertionSort tsLE raw = sort_price_history raw from rfl, hcons]; exact List.mem_cons_self a t)
      · unfold spot_price_at_launch price_points
        rw [List.head?_map, hcons]
        rfl
      · intro s2 hs2
        exact sorted_head_min hsorted2 (by rw [hcons]; rfl) s2
          ((List.perm_insertionSort tsLE raw).mem_iff.mpr hs2)
    · have hlast : ∃ y, (sort_price_history raw).getLast? = some y := by
        rw [hcons]
        exact ⟨(a :: t).getLast (by simp), List.getLast?_eq_getLast (a :: t) (by simp)⟩
      obtain ⟨y, hy⟩ := hlast
      refine ⟨y, ?_, ?_, ?_⟩
      · exact (List.perm_insertionSort tsLE raw).mem_iff.mp
          (List.mem_of_mem_getLast? hy)
      · unfold spot_price_at_termination price_points
        rw [List.getLast?_map, hy]
        rfl
      · intro s2 hs2
        exact sorted_getLast_max (sort_price_history raw) hsorted2 hy s2
          ((List.perm_insertionSort tsLE raw).mem_iff.mpr hs2)

unseal Rat.add Rat.sub Rat.mul Rat.inv in
/-- Claim C4, witness: the unsorted two-sample history is reordered so
that the launch price comes from the earlier sample. -/
theorem price_extraction_witness :
    (∃ s ∈ raw0, spot_price_at_launch (price_points (sort_price_history raw0)) (7 / 100)
        = s.spotPrice ∧ ∀ s2 ∈ raw0, s.timestamp ≤ s2.timestamp) ∧
    (∃ s ∈ raw0,
        spot_price_at_termination (price_points (sort_price_history raw0)) (7 / 100)
        = s.spotPrice ∧ ∀ s2 ∈ raw0, s2.timestamp ≤ s.timestamp) :=
  (price_extraction raw0 (7 / 100)).2.1 (of_decide_eq_true rfl)

unseal Rat.add Rat.sub Rat.mul Rat.inv in
/-- Claim C5, counterexample: line 137 rounds the root-mean-square
deviation to 6 decimal places, so for samples 0, 2e-7, 4e-7, 4e-7
with launch price 0 the stored dispersion is 0 while the exact RMS
deviation is 3e-7. -/
theorem dispersion_counterexample :
    price_variance prices0 0 = 0 ∧
    rms_deviation prices0 0 = 3 / 10 ^ 7 ∧
    (0 : ℝ) ≠ 3 / 10 ^ 7 := by
  have hmean : ((prices0.map fun p => (p - 0) ^ 2).sum) / (prices0.length : ℚ)
      = 9 / 10 ^ 14 := by
    norm_num [prices0]
  have hsq : Real.sqrt (((9 : ℚ) / 10 ^ 14 : ℚ) : ℝ) = 3 / 10 ^ 7 := by
    rw [show (((9 : ℚ) / 10 ^ 14 : ℚ) : ℝ) = ((3 : ℝ) / 10 ^ 7) ^ 2 from by
      push_cast
      norm_num]
    exact Real.sqrt_sq (by norm_num)
  have hrms : rms_deviation prices0 0 = 3 / 10 ^ 7 := by
    rw [rms_eq_sqrt_cast, hmean]
    exact hsq
  refine ⟨?_, hrms, by norm_num⟩
  have hpv : price_variance prices0 0 = round6_sqrt (9 / 10 ^ 14) := by
    unfold price_variance
    rw [if_neg (by simp [prices0] : ¬ prices0 = []), hmean]
  obtain ⟨k, hk, hb, _⟩ := round6_sqrt_spec (9 / 10 ^ 14) (by norm_num)
  rw [hsq] at hb
  have hk0 : k = 0 := by
    by_contra hne
    have h1 : (1 : ℝ) ≤ (k : ℝ) := by
      exact_mod_cast Nat.one_le_iff_ne_zero.mpr hne
    rw [abs_le] at hb
    obtain ⟨hb1, hb2⟩ := hb
    norm_num at hb2
    linarith
  rw [hpv, hk, hk0]
  norm_num

/-- Claim C5, amended: the stored dispersion is the half-even rounding
of the RMS deviation to 6 decimal places — an integer multiple of
10⁻⁶ within 5·10⁻⁷ of the exact RMS deviation, choosing the even
multiple at an exact tie — and exactly 0 for an empty series. -/
theorem dispersion_amended (prices : List ℚ) (launch : ℚ) :
    (prices = [] → price_variance prices launch = 0) ∧
    (prices ≠ [] →
      ∃ k : ℕ, price_variance prices launch = (k : ℚ) / 10 ^ 6 ∧
        |(k : ℝ) - 10 ^ 6 * rms_deviation prices launch| ≤ 1 / 2 ∧
        (|(k : ℝ) - 10 ^ 6 * rms_deviation prices launch| = 1 / 2 → Even k)) := by
  constructor
  · intro h
    simp [price_variance, h]
  · intro hne
    obtain ⟨k, hk, hb, ht⟩ := round6_sqrt_spec
      (((prices.map fun p => (p - launch) ^ 2).sum) / (prices.length : ℚ))
      (mean_sq_nonneg prices launch)
    refine ⟨k, ?_, ?_, ?_⟩
    · unfold price_variance
      rw [if_neg hne]
      exact hk
    · rw [rms_eq_sqrt_cast]
      exact hb
    · rw [rms_eq_sqrt_cast]
      exact ht

unseal Rat.add Rat.sub Rat.mul Rat.inv in
/-- Claim C5, witness for the amended theorem at the concrete price
list. -/
theorem dispersion_amended_witness :
    prices0 ≠ [] ∧
    (∃ k : ℕ, price_variance prices0 0 = (k : ℚ) / 10 ^ 6 ∧
      |(k : ℝ) - 10 ^ 6 * rms_deviation prices0 0| ≤ 1 / 2 ∧
      (|(k : ℝ) - 10 ^ 6 * rms_deviation prices0 0| = 1 / 2 → Even k)) :=
  ⟨of_decide_eq_true rfl, (dispersion_amended prices0 0).2 (of_decide_eq_true rfl)⟩

/-- Claim C6, confirmed: the uptime class of line 142 is VeryShort
exactly below 30 minutes, Short exactly on [30, 120), Long exactly
from 120 minutes on, and the boundary values land in the upper class. -/
theorem uptime_class_thresholds (u : ℚ) :
    (uptime_class u = "VeryShort" ↔ u < 30) ∧
    (uptime_class u = "Short" ↔ 30 ≤ u ∧ u < 120) ∧
    (uptime_class u = "Long" ↔ 120 ≤ u) ∧
    uptime_class (30 : ℚ) = "Short" ∧ uptime_class (120 : ℚ) = "Long" := by
  refine ⟨?_, ?_, ?_, of_decide_eq_true rfl, of_decide_eq_true rfl⟩ <;> unfold uptime_class
  · constructor
    · intro h
      by_contra hcon
      rw [if_neg hcon] at h
      split_ifs at h <;> simp_all
    · intro h
      rw [if_pos h]
  · constructor
    · intro h
      by_cases h1 : u < 30
      · rw [if_pos h1] at h
        simp at h
      · rw [if_neg h1] at h
        by_cases h2 : u < 120
        · exact ⟨le_of_not_lt h1, h2⟩
        · rw [if_neg h2] at h
          simp at h
    · intro ⟨h30, h120⟩
      rw [if_neg (not_lt.mpr h30), if_pos h120]
  · constructor
    · intro h
      by_cases h1 : u < 30
      · rw [if_pos h1] at h
        simp at h
      · rw [if_neg h1] at h
        by_cases h2 : u < 120
        · rw [if_pos h2] at h
          simp at h
        · exact le_of_not_lt h2
    · intro h
      rw [if_neg (by linarith : ¬ u < 30), if_neg (by linarith : ¬ u < 120)]

/-- Claim C7, confirmed: line 141 sets the short-lived flag exactly
below 60 minutes, independently of the uptime class: a 90-minute
instance is classified Short yet is not short-lived. -/
theorem short_lived_boundary (u : ℚ) :
    (is_short_lived u = true ↔ u < 60) ∧
    uptime_class (90 : ℚ) = "Short" ∧ is_short_lived (90 : ℚ) = false := by
  refine ⟨?_, of_decide_eq_true rfl, of_decide_eq_true rfl⟩
  unfold is_short_lived
  exact decide_eq_true_iff

unseal Rat.add Rat.sub Rat.mul Rat.inv in
/-- Claim C8, counterexample: line 107 fetches the zone-id mapping
inside the per-event enrichment, so a run over two recent
terminations performs the mapping fetch twice — more than once per
run. -/
theorem az_refetch_counterexample :
    List.count ApiCall.azMapping (run_enrichment api0 batch2 1200).2 = 2 ∧
    ¬ List.count ApiCall.azMapping (run_enrichment api0 batch2 1200).2 ≤ 1 :=
  ⟨of_decide_eq_true rfl, of_decide_eq_true rfl⟩

/-- Claim C8, amended: the zone-id mapping is fetched once per
enriched event — on a successful run, exactly as many times as there
are events in the lookback window — not once per run with a shared
cache. -/
theorem az_refetch_amended (api : Ec2Api) (spot_requests : List SpotRequest) (now : ℚ)
    (recs : List EnrichedRecord)
    (h : (run_enrichment api spot_requests now).1 = .ok recs) :
    List.count ApiCall.azMapping (run_enrichment api spot_requests now).2
      = (recent_terminated spot_requests now).length := by
  unfold run_enrichment at h ⊢
  exact termination_logs_az_count api spot_requests
    (recent_terminated spot_requests now).length
    (az_counter (recent_terminated spot_requests now))
    (recent_terminated spot_requests now) recs h

unseal Rat.add Rat.sub Rat.mul Rat.inv in
/-- Claim C8, witness for the amended theorem at the concrete run. -/
theorem az_refetch_amended_witness :
    List.count ApiCall.azMapping (run_enrichment api0 batch2 1200).2
      = (recent_terminated batch2 1200).length :=
  az_refetch_amended api0 batch2 1200 rlRun (of_decide_eq_true rfl)

/-- Claim C9, confirmed: evaluating the description template with
Python dict semantics over the enriched dict never raises — for every
record, with any combination of absent optional fields — and equals
the total rendering that substitutes the `None` placeholder for each
absent value; the function reads nothing but the record and the
lookback constant. -/
theorem description_total (rec : EnrichedRecord) :
    generate_description (enriched_dict rec) = Except.ok (description_text rec) :=
  generate_ok rec

/-- Claim C10, confirmed: every record a run produces was built from a
member of the filtered recent-termination set, so its zone bucket
counts at least the event itself and at most the whole filtered set:
1 ≤ AZInterruptionRate ≤ RegionDemandScore. -/
theorem demand_bounds (api : Ec2Api) (spot_requests : List SpotRequest) (now : ℚ)
    (recs : List EnrichedRecord) (rec : EnrichedRecord)
    (hrun : (run_enrichment api spot_requests now).1 = .ok recs)
    (hmem : rec ∈ recs) :
    1 ≤ rec.AZInterruptionRate ∧ rec.AZInterruptionRate ≤ rec.RegionDemandScore := by
  unfold run_enrichment at hrun
  obtain ⟨req, hreq, hAZ, hRDS⟩ := termination_logs_mem api spot_requests
    (recent_terminated spot_requests now).length
    (az_counter (recent_terminated spot_requests now))
    (recent_terminated spot_requests now) recs rec hrun hmem
  rw [hAZ, hRDS, az_counter_eq]
  constructor
  · have hpos : 0 < (recent_terminated spot_requests now).countP
        (fun r => decide (r.launchedAvailabilityZone = req.launchedAvailabilityZone)) :=
      List.countP_pos_iff.mpr ⟨req, hreq, by simp⟩
    omega
  · exact List.countP_le_length _

unseal Rat.add Rat.sub Rat.mul Rat.inv in
/-- Claim C10, witness at the concrete run. -/
theorem demand_bounds_witness :
    1 ≤ recRun.AZInterruptionRate ∧
      recRun.AZInterruptionRate ≤ recRun.RegionDemandScore :=
  demand_bounds api0 batch2 1200 rlRun recRun (of_decide_eq_true rfl)
    (of_decide_eq_true rfl)

end SpotTermination
